import Mathlib

/-!
Verification of the polling/refresh orchestration core of the
waveshare-pinfo picture-frame repository.

The Python sources are shallowly embedded: stateful objects become explicit
state records, wall-clock times become `Nat` minute counts, the external
collaborators (Google Photos API, Home Assistant REST API, the vendor panel
driver) become oracle parameters whose results are passed into each step,
and every display/panel interaction is recorded as an element of an
operation trace.  All definitions follow the control flow of the source
files `google_photos_service.py`, `photo_display_service.py`,
`photo_display.py` and `eink_display.py`.
-/

namespace PInfo

/-! ## Basic data

A photo, as built by `GooglePhotosService.get_album_photos`
(google_photos_service.py, lines 302-309): a dict with id, filename,
baseUrl, creationTime and dimension strings. -/

structure Photo where
  id : String
  filename : String
  baseUrl : String
  creationTime : Option String
  width : Option String
  height : Option String
deriving DecidableEq, Repr

/-- A PIL image is abstracted to its pixel dimensions; the claims about the
cache and the scheduler never inspect pixel data. -/
structure PImage where
  w : Nat
  h : Nat
deriving DecidableEq, Repr

/-! ## Google Photos cache (google_photos_service.py)

`GooglePhotosService.__init__` sets `photo_cache = []`,
`current_photo_index = 0`, `last_fetch_time = None`,
`cache_duration = timedelta(hours=1)`.  Times are modelled in minutes. -/

structure PhotosState where
  photoCache : List Photo
  currentPhotoIndex : Nat
  lastFetchTime : Option Nat
deriving DecidableEq, Repr

/-- Source value `cache_duration = timedelta(hours=1)`, in minutes. -/
def cacheDurationMinutes : Nat := 60

def initPhotosState : PhotosState :=
  { photoCache := [], currentPhotoIndex := 0, lastFetchTime := none }

/-- The guard of `refresh_photo_cache` (lines 419-421):
`not self.last_fetch_time or now - self.last_fetch_time > self.cache_duration
or not self.photo_cache`. -/
def needsRefresh (s : PhotosState) (now : Nat) : Bool :=
  match s.lastFetchTime with
  | none => true
  | some t => decide (now - t > cacheDurationMinutes) || s.photoCache.isEmpty

/-- Model of `GooglePhotosService.refresh_photo_cache` (lines 415-433).  The network
call `get_album_photos()` is an oracle: its already-materialized result is
the `fetched` parameter (`[]` models a failed or empty fetch, since the
source returns `[]` on every error path of `get_album_photos`).  The
in-place `random.shuffle` is absorbed into the oracle's nondeterminism (the
oracle hands over the post-shuffle order); it preserves length and
emptiness.  Returns the new state and whether the fetch was invoked. -/
def refresh_photo_cache (s : PhotosState) (now : Nat) (fetched : List Photo) :
    PhotosState × Bool :=
  if needsRefresh s now then
    ({ s with photoCache := fetched, lastFetchTime := some now }, true)
  else
    (s, false)

/-- Result of `get_next_photo`: `None`, a photo, or an uncaught
`IndexError` raised by `photo_cache[current_photo_index]`. -/
inductive NextResult
  | noPhotos
  | photo (p : Photo)
  | indexError
deriving DecidableEq, Repr

structure NextOut where
  result : NextResult
  state : PhotosState
  didFetch : Bool
deriving DecidableEq, Repr

/-- Model of `GooglePhotosService.get_next_photo` (lines 435-446): refresh the cache,
return `None` on empty cache, otherwise read
`photo_cache[current_photo_index]` (which Python would crash on when the
index is out of bounds — modelled by `NextResult.indexError`) and advance
the index modulo the cache length. -/
def get_next_photo (s : PhotosState) (now : Nat) (fetched : List Photo) :
    NextOut :=
  let r := refresh_photo_cache s now fetched
  let s1 := r.1
  if s1.photoCache.isEmpty then
    { result := .noPhotos, state := s1, didFetch := r.2 }
  else
    match s1.photoCache.get? s1.currentPhotoIndex with
    | none => { result := .indexError, state := s1, didFetch := r.2 }
    | some p =>
      { result := .photo p,
        state := { s1 with
          currentPhotoIndex := (s1.currentPhotoIndex + 1) % s1.photoCache.length },
        didFetch := r.2 }

/-- Model of `PhotoDisplayService.should_update_photo` (photo_display_service.py,
lines 188-194): `True` if no photo was ever shown, else `True` iff at least
`rotation_interval` minutes have elapsed. -/
def should_update_photo (lastPhotoUpdate : Option Nat) (now rotationInterval : Nat) :
    Bool :=
  match lastPhotoUpdate with
  | none => true
  | some t => decide (now - t ≥ rotationInterval)

/-! ## Wall-clock model and `strftime` fragments

`datetime.now()` readings are modelled by a record of calendar fields; the
formatting used by the sources (`%I:%M %p`, `%A, %B %d`, `%B %d, %Y`)
never reads seconds. -/

structure ClockTime where
  year : Nat
  month : Nat
  day : Nat
  /-- Weekday index: 0 = Monday … 6 = Sunday, as `%A` needs a weekday. -/
  weekday : Nat
  hour24 : Nat
  minute : Nat
  second : Nat
deriving DecidableEq, Repr

/-- Two-digit zero-padded decimal, as `strftime` prints `%I`, `%M`, `%d`. -/
def pad2 (n : Nat) : String :=
  if n < 10 then "0" ++ toString n else toString n

/-- Format `%I`: 12-hour clock hour, 01-12. -/
def hour12 (h : Nat) : Nat :=
  if h % 12 = 0 then 12 else h % 12

/-- Format `%p`. -/
def ampm (h : Nat) : String :=
  if h < 12 then "AM" else "PM"

/-- Format `now.strftime("%I:%M %p")`. -/
def fmtTimeIMp (t : ClockTime) : String :=
  pad2 (hour12 t.hour24) ++ ":" ++ pad2 t.minute ++ " " ++ ampm t.hour24

/-- Format `%B`: full month name. -/
def monthName : Nat → String
  | 1 => "January" | 2 => "February" | 3 => "March" | 4 => "April"
  | 5 => "May" | 6 => "June" | 7 => "July" | 8 => "August"
  | 9 => "September" | 10 => "October" | 11 => "November" | 12 => "December"
  | _ => ""

/-- Format `%A`: full weekday name. -/
def weekdayName : Nat → String
  | 0 => "Monday" | 1 => "Tuesday" | 2 => "Wednesday" | 3 => "Thursday"
  | 4 => "Friday" | 5 => "Saturday" | 6 => "Sunday"
  | _ => ""

/-- Format `now.strftime("%A, %B %d")`. -/
def fmtDateABd (t : ClockTime) : String :=
  weekdayName t.weekday ++ ", " ++ monthName t.month ++ " " ++ pad2 t.day

/-! ## Home Assistant weather snapshot (eink_display.py)

`get_homeassistant_entity` returns a JSON dict with a `state` and an
optional `unit_of_measurement` attribute, or `None` on any request error
(lines 65-86). -/

structure Entity where
  state : String
  unit : Option String
deriving DecidableEq, Repr

/-- Extraction `x.get('state', 'N/A') if x else 'N/A'` (lines 265-278). -/
def entityState (e : Option Entity) : String :=
  match e with
  | some x => x.state
  | none => "N/A"

/-- Extraction of the unit attribute with a default, per lines 266-276. -/
def entityUnit (e : Option Entity) (dflt : String) : String :=
  match e with
  | some x => x.unit.getD dflt
  | none => dflt

/-- The display-relevant fields extracted in `update_display`
(lines 264-278). -/
structure WeatherReading where
  temp : String
  tempUnit : String
  humidity : String
  windSpeed : String
  windGust : String
  windUnit : String
  dailyRain : String
  rainUnit : String
  feelsLike : String
deriving DecidableEq, Repr

/-- Lines 264-278 of eink_display.py: extraction with `'N/A'` fallbacks and
default units. -/
def extractWeather (tempD humD windD gustD rainD feelsD : Option Entity) :
    WeatherReading :=
  { temp := entityState tempD
    tempUnit := entityUnit tempD "°C"
    humidity := entityState humD
    windSpeed := entityState windD
    windGust := entityState gustD
    windUnit := entityUnit windD "mph"
    dailyRain := entityState rainD
    rainUnit := entityUnit rainD "in"
    feelsLike := entityState feelsD }

/-- Source line 294: `temp_line = f"{temp}{temp_unit}"`. -/
def temp_line (w : WeatherReading) : String :=
  w.temp ++ w.tempUnit

/-- Source line 363: `weather_string = f"{temp_line}|{humidity}|{wind_speed}|{daily_rain}|{feels_like}"`
(line 363): the canonical serialization whose md5 is the change-detector
fingerprint.  Note wind gust and the wind/rain units do not appear. -/
def weather_string (w : WeatherReading) : String :=
  temp_line w ++ "|" ++ w.humidity ++ "|" ++ w.windSpeed ++ "|" ++
    w.dailyRain ++ "|" ++ w.feelsLike

/-- The digest `hashlib.md5(weather_string).hexdigest()` (line 365) is modelled as the
serialization itself: the digest is a deterministic function of it, so
equal serializations give equal digests (and the code compares digests only
for equality; inequality additionally assumes md5 collision-freedom). -/
def weather_fingerprint (w : WeatherReading) : String :=
  weather_string w

/-- Source line 384: `content_string = f"{time_str}|{date_str}|...weather fields..."`
(line 384). -/
def content_string (w : WeatherReading) (t : ClockTime) : String :=
  fmtTimeIMp t ++ "|" ++ fmtDateABd t ++ "|" ++ weather_string w

/-- Lines 351-354: `wind_display`. -/
def wind_display (w : WeatherReading) : String :=
  if w.windGust ≠ "N/A" ∧ w.windGust ≠ w.windSpeed then
    w.windSpeed ++ " / " ++ w.windGust ++ " " ++ w.windUnit
  else
    w.windSpeed ++ " " ++ w.windUnit

/-- Line 357: the rendered details line (wind and rain), part of the
displayed output. -/
def details_line (w : WeatherReading) : String :=
  "💨 " ++ wind_display w ++ "  •  🌧 " ++ w.dailyRain ++ " " ++ w.rainUnit

/-! ## E-ink display state and the change-detector tick (eink_display.py) -/

/-- State of `EInkDisplay.__init__` (lines 48-51), plus `partial_update_count`
which the source initializes lazily via `hasattr` (line 203); here it is
present from the start with value 0, which is what the lazy
initialization produces.  Named `pUpdateCount` in this embedding. -/
structure EInkState where
  lastContentHash : Option String
  updateCount : Nat
  lastMinute : Option String
  lastWeatherHash : Option String
  pUpdateCount : Nat
deriving DecidableEq, Repr

def initEInkState : EInkState :=
  { lastContentHash := none, updateCount := 0, lastMinute := none,
    lastWeatherHash := none, pUpdateCount := 0 }

inductive Decision
  | repaint
  | skip
deriving DecidableEq, Repr

/-- The decision-and-bookkeeping core of `EInkDisplay.update_display`
(lines 362-385): `weather_changed = last_weather_hash != weather_hash`,
`force_full_update = update_count % 20 == 0`; on a full update the panel is
painted, `last_weather_hash`, `last_minute` are stored and `update_count`
is incremented; otherwise the update is skipped; `last_content_hash` is
always refreshed. -/
def weatherTick (s : EInkState) (w : WeatherReading) (t : ClockTime) :
    EInkState × Decision :=
  let fp := weather_fingerprint w
  let weatherChanged := s.lastWeatherHash ≠ some fp
  let forceFullUpdate := s.updateCount % 20 = 0
  if weatherChanged ∨ forceFullUpdate then
    ({ s with
        lastWeatherHash := some fp
        lastMinute := some (fmtTimeIMp t)
        updateCount := s.updateCount + 1
        lastContentHash := some (content_string w t) }, .repaint)
  else
    ({ s with lastContentHash := some (content_string w t) }, .skip)

/-- Runs `n` consecutive change-detector ticks with a fixed reading and clock,
collecting the decisions in order. -/
def weatherTicks (s : EInkState) (w : WeatherReading) (t : ClockTime) :
    Nat → EInkState × List Decision
  | 0 => (s, [])
  | n + 1 =>
    let r := weatherTick s w t
    let rest := weatherTicks r.1 w t n
    (rest.1, r.2 :: rest.2)

/-! ## Partial time-only update (eink_display.py, lines 136-221) -/

/-- Low-level panel driver operations issued by `update_time_only` and
`update_display`. -/
inductive EinkOp
  | setWindow (x0 y0 x1 y1 : Nat)
  | setCursor (x y : Nat)
  | sendCommand (c : Nat)
  | sendData2
  | turnOnDisplay
  /-- `self.epd.display(self.epd.getbuffer(image))`, a full repaint. -/
  | fullDisplay
deriving DecidableEq, Repr

/-- Panel operations of `update_display`'s outcome. -/
def decisionOps : Decision → List EinkOp
  | .repaint => [.fullDisplay]
  | .skip => []

/-- The driver operations of a successful partial refresh
(lines 183-197): left window, then right window, then `TurnOnDisplay`;
`0x24` is the RAM write command. -/
def windowRefreshOps : List EinkOp :=
  [.setWindow 16 10 240 70, .setCursor 16 10, .sendCommand 0x24, .sendData2,
   .setWindow 400 10 632 60, .setCursor 400 10, .sendCommand 0x24, .sendData2,
   .turnOnDisplay]

/-- Model of `EInkDisplay.update_time_only` (lines 136-221).
* If the formatted minute equals `last_minute`, return at once (line 143).
* If the required low-level methods are missing (`hasPartialMethods`),
  record the minute and skip (lines 150-154).
* Otherwise attempt the partial refresh; `failAfter = some k` models the
  `except` branch firing after `k` driver operations (lines 215-218), which
  records the minute and returns without touching the counter.
* On success, increment `pUpdateCount`; when it reaches 8, reset it and run
  a full `update_display` (lines 203-211), whose weather fetch result is
  the oracle `w`. -/
def update_time_only (s : EInkState) (t : ClockTime) (hasPartialMethods : Bool)
    (failAfter : Option Nat) (w : WeatherReading) : EInkState × List EinkOp :=
  let currentMinute := fmtTimeIMp t
  if s.lastMinute = some currentMinute then
    (s, [])
  else if !hasPartialMethods then
    ({ s with lastMinute := some currentMinute }, [])
  else
    match failAfter with
    | some k => ({ s with lastMinute := some currentMinute }, windowRefreshOps.take k)
    | none =>
      let s1 := { s with lastMinute := some currentMinute,
                         pUpdateCount := s.pUpdateCount + 1 }
      if s1.pUpdateCount ≥ 8 then
        let s2 := { s1 with pUpdateCount := 0 }
        let r := weatherTick s2 w t
        (r.1, windowRefreshOps ++ decisionOps r.2)
      else
        (s1, windowRefreshOps)

/-! ## Photo display service tick (photo_display_service.py) -/

/-- Panel operations of `PhotoDisplayService` and `photo_display.py`. -/
inductive PanelOp
  | initPanel
  | clearPanel
  | displayLoading
  | displayError (msg : String)
  /-- display of the composed photo-plus-info image. -/
  | displayPhoto
  | displayMessage (msg : String)
  | panelSleep
deriving DecidableEq, Repr

/-- State of `PhotoDisplayService.__init__` (lines 41-47). -/
structure ServiceState where
  lastPhotoUpdate : Option Nat
  currentPhotoInfo : Option Photo
  currentPhotoImage : Option PImage
  updateCount : Nat
  lastDisplayUpdate : Option Nat
deriving DecidableEq, Repr

def initServiceState : ServiceState :=
  { lastPhotoUpdate := none, currentPhotoInfo := none,
    currentPhotoImage := none, updateCount := 0, lastDisplayUpdate := none }

structure ServiceOut where
  state : ServiceState
  panelOps : List PanelOp
  /-- number of `get_next_photo` invocations performed by this tick. -/
  fetchCalls : Nat
deriving DecidableEq, Repr

/-- Model of `PhotoDisplayService.update_display` (lines 196-265).  The three
network/processing collaborators are oracles: `fetchResult` is what
`photos_service.get_next_photo()` returns, `downloadResult` what
`download_photo` returns, `processResult` what `process_image_for_eink`
returns.  The function catches every exception internally, so it always
returns; the panel operations it issues are collected in order. -/
def service_update_display (s : ServiceState) (now rotationInterval : Nat)
    (fetchResult : Option Photo) (downloadResult processResult : Option PImage) :
    ServiceOut :=
  if should_update_photo s.lastPhotoUpdate now rotationInterval
      || s.currentPhotoInfo.isNone then
    -- show loading screen, then fetch (lines 205-210)
    match fetchResult with
    | none =>
      { state := s,
        panelOps := [.displayLoading, .displayError "No photos available"],
        fetchCalls := 1 }
    | some p =>
      match downloadResult with
      | none =>
        { state := s,
          panelOps := [.displayLoading, .displayError "Failed to download photo"],
          fetchCalls := 1 }
      | some _ =>
        match processResult with
        | none =>
          { state := s,
            panelOps := [.displayLoading, .displayError "Failed to process photo"],
            fetchCalls := 1 }
        | some img =>
          -- lines 238-240, then fall through to the display block (245-253)
          let s1 := { s with currentPhotoInfo := some p,
                             currentPhotoImage := some img,
                             lastPhotoUpdate := some now }
          { state := { s1 with updateCount := s1.updateCount + 1,
                               lastDisplayUpdate := some now },
            panelOps := [.displayLoading, .displayPhoto],
            fetchCalls := 1 }
  else
    -- no new photo needed: redisplay the current photo (lines 245-257)
    match s.currentPhotoImage with
    | some _ =>
      { state := { s with updateCount := s.updateCount + 1,
                          lastDisplayUpdate := some now },
        panelOps := [.displayPhoto],
        fetchCalls := 0 }
    | none =>
      { state := s,
        panelOps := [.displayError "No photo loaded"],
        fetchCalls := 0 }

/-! ## Run loops and exit paths

`EInkDisplay.run` (eink_display.py, lines 390-424) and
`PhotoDisplayService.run` (photo_display_service.py, lines 285-319) share
the shape: init, initial update, `while True` over scheduler ticks inside
`try`, with `except KeyboardInterrupt`, `except Exception`, and a
`finally` whose last statement is `epdconfig.module_exit()`. -/

inductive RunEvent
  | initPanel
  | clearPanel
  /-- one scheduler-driven call of the tick body. -/
  | tickRun
  | logEvent (msg : String)
  /-- Call `epdconfig.module_exit()`: release the panel. -/
  | moduleExit
deriving DecidableEq, Repr

/-- Why the `while True` loop terminated. -/
inductive ExitCause
  | interrupt
  | exception
deriving DecidableEq, Repr

/-- The handler that runs for each exit cause of `EInkDisplay.run`
(lines 418-421). -/
def einkHandlerEvent : ExitCause → RunEvent
  | .interrupt => .logEvent "Shutting down due to KeyboardInterrupt..."
  | .exception => .logEvent "An unexpected error occurred"

/-- The handler of `PhotoDisplayService.run` (lines 313-316). -/
def serviceHandlerEvent : ExitCause → RunEvent
  | .interrupt => .logEvent "Shutting down photo display service..."
  | .exception => .logEvent "Unexpected error in main loop"

/-- A complete execution of `EInkDisplay.run` whose loop performs `n`
iterations before `cause` aborts it: `init_display` (init + Clear), the
initial `update_display`, the loop iterations, the matching handler, then
the `finally` block — whose last statement is `epdconfig.module_exit()`. -/
def einkRunTrace (n : Nat) (cause : ExitCause) : List RunEvent :=
  ([.initPanel, .clearPanel, .tickRun] ++ List.replicate n .tickRun ++
    [einkHandlerEvent cause,
     .logEvent "Cleaning up GPIO and putting display to sleep..."]) ++
    [.moduleExit]

/-- A complete execution of the post-authentication part of
`PhotoDisplayService.run` (lines 289-319), same shape. -/
def serviceRunTrace (n : Nat) (cause : ExitCause) : List RunEvent :=
  ([.initPanel, .clearPanel, .tickRun] ++ List.replicate n .tickRun ++
    [serviceHandlerEvent cause,
     .logEvent "Cleaning up GPIO and putting display to sleep..."]) ++
    [.moduleExit]

/-! ## Authentication failure at startup

Two run-loop entry points handle a failed `authenticate()`:
* `photo_display.main` (photo_display.py, lines 92-104) shows a static
  failure message and then polls the reload flag every 5 seconds,
  returning only when the flag becomes true;
* `PhotoDisplayService.run` (photo_display_service.py, lines 285-297)
  shows an error image and returns immediately. -/

/-- The idle loop `while not reload_check(): time.sleep(5)` observed for
`polls` iterations: the poll index at which the loop exited, or `none` if
the flag stayed false for all observed polls and the loop is still
idling. -/
def idleExit (reload : Nat → Bool) : Nat → Option Nat
  | 0 => none
  | n + 1 =>
    if reload 0 then some 0
    else (idleExit (fun k => reload (k + 1)) n).map (· + 1)

structure MainRunOut where
  panelOps : List PanelOp
  /-- Stays `none` while the auth-failure idle loop is still running. -/
  exitedAtPoll : Option Nat
deriving DecidableEq, Repr

/-- The auth-failure path of `photo_display.main`: the startup message, the
failure message, then the idle loop (observed for `polls` polls of the
reload flag). -/
def photoDisplayMainAuthFail (reload : Nat → Bool) (polls : Nat) : MainRunOut :=
  { panelOps := [.displayMessage "Starting up Photo Frame...",
                 .displayMessage "Authentication Failed.\nCheck .env and token files."],
    exitedAtPoll := idleExit reload polls }

/-- How `PhotoDisplayService.run` proceeds after `init_display`. -/
inductive ServiceRunStart
  /-- Case `authenticate()` returned `False`: error image displayed, then
  `return` — the run function exits without entering any loop. -/
  | exitAfterAuthFailure (ops : List PanelOp)
  /-- authentication succeeded: the scheduler loop is entered. -/
  | mainLoopEntered (ops : List PanelOp)
deriving DecidableEq, Repr

/-- Model of `PhotoDisplayService.run`, lines 285-303, up to the main loop. -/
def photoServiceRunStart (authOk : Bool) : ServiceRunStart :=
  if authOk then
    .mainLoopEntered [.initPanel, .clearPanel]
  else
    .exitAfterAuthFailure
      [.initPanel, .clearPanel, .displayError "Authentication failed"]

/-! ## Render stage: `PhotoDisplayService.draw_photo_with_info`
(photo_display_service.py, lines 62-127)

The composed bitmap is represented by the ordered list of deterministic
drawing primitives applied to the fresh white canvas; equal primitive
lists rasterize to byte-identical bitmaps.  Python float arithmetic in the
resize step is modelled over `ℚ` with truncation (`int()` on a nonnegative
float is the floor). -/

inductive FontTag
  | fontXLarge
  | fontLargeDetails
  | fontLarge
  | fontMedium
  | fontSmall
  | fontTiny
deriving DecidableEq, Repr

/-- Drawing primitives.  Text placement that the source computes from
`draw.textlength` (a deterministic font metric) is recorded by its anchor:
`textCentered` is centered on the full display width
(`draw_centered_text`), `textCenteredAt` on an explicit horizontal anchor,
`textLeft`/`textRight` are the left/right aligned helpers. -/
inductive DrawOp
  | pasteImage (x y w h : Int)
  | rectOutline (x0 y0 x1 y1 : Int)
  | lineSeg (x0 y0 x1 y1 width : Int)
  | textCentered (y : Int) (text : String) (font : FontTag)
  | textCenteredAt (xc : ℚ) (y : Int) (text : String) (font : FontTag)
  | textLeft (x y : Int) (text : String) (font : FontTag)
  | textRight (x y : Int) (text : String) (font : FontTag)
deriving DecidableEq, Repr

/-- Model of `resize_photo_for_display` (lines 129-148): scale by
`min(max_w / w, max_h / h)` and truncate each dimension.  A zero dimension
would raise `ZeroDivisionError`, and the `except` branch returns the photo
unchanged. -/
def resize_photo_for_display (photo : PImage) (maxW maxH : Nat) : PImage :=
  if photo.w = 0 ∨ photo.h = 0 then photo
  else
    let scale : ℚ := min ((maxW : ℚ) / photo.w) ((maxH : ℚ) / photo.h)
    { w := ((photo.w : ℚ) * scale).floor.toNat,
      h := ((photo.h : ℚ) * scale).floor.toNat }

/-- The date part of `datetime.fromisoformat(ct.replace('Z', '+00:00'))`
followed by `strftime("%B %d, %Y")` (lines 110-116).  Modelled from the
`YYYY-MM-DD` prefix that `fromisoformat` requires; `none` models the parse
exception, which the source swallows. -/
def parseISOCreationDate (s : String) : Option (Nat × Nat × Nat) :=
  if (s.drop 4).take 1 = "-" ∧ (s.drop 7).take 1 = "-" ∧ 10 ≤ s.length then
    match (s.take 4).toNat?, ((s.drop 5).take 2).toNat?, ((s.drop 8).take 2).toNat? with
    | some y, some m, some d =>
      if 1 ≤ m ∧ m ≤ 12 ∧ 1 ≤ d ∧ d ≤ 31 then some (y, m, d) else none
    | _, _, _ => none
  else none

/-- Truncation `filename[:27] + "..." if len(filename) > 30` (lines 101-103). -/
def truncateFilename (fn : String) : String :=
  if fn.length > 30 then fn.take 27 ++ "..." else fn

/-- Model of `draw_photo_with_info(photo_image, photo_info)` for the 640×400 panel.
The wall clock sampled at line 119 is the explicit `t` parameter.  The
returned primitive list follows the source's drawing order: paste, the
two border rectangles, the separator line, the centered filename, the
optional creation date, and the `Updated:` line, which is the only place
the clock is read (via `%I:%M %p`, minute granularity). -/
def draw_photo_with_info (photo : PImage) (info : Photo) (t : ClockTime) :
    List DrawOp :=
  let width : Int := 640
  let height : Int := 400
  let infoHeight : Int := 80
  let photoAreaHeight : Int := height - infoHeight
  let pd := resize_photo_for_display photo 640 (height - infoHeight).toNat
  let photoX : Int := (width - pd.w) / 2
  let photoY : Int := (photoAreaHeight - pd.h) / 2
  let borderOps : List DrawOp :=
    (List.range 2).map fun i =>
      .rectOutline (photoX - i - 1) (photoY - i - 1)
        (photoX + pd.w + i) (photoY + pd.h + i)
  let separatorY : Int := photoAreaHeight + 10
  let infoY : Int := separatorY + 15
  let dateOps : List DrawOp :=
    match info.creationTime with
    | none => []
    | some ct =>
      match parseISOCreationDate ct with
      | none => []
      | some ymd =>
        [.textCentered (infoY + 25)
          (monthName ymd.2.1 ++ " " ++ pad2 ymd.2.2 ++ ", " ++ toString ymd.1)
          .fontSmall]
  [DrawOp.pasteImage photoX photoY pd.w pd.h] ++ borderOps ++
    [.lineSeg 10 separatorY (width - 10) separatorY 2,
     .textCentered infoY (truncateFilename info.filename) .fontMedium] ++
    dateOps ++
    [.textCentered (infoY + 45) ("Updated: " ++ fmtTimeIMp t) .fontSmall]

/-! ## Render stage: the composition part of `EInkDisplay.update_display`
(eink_display.py, lines 223-360)

The drawing performed on the fresh white canvas before the
change-detector decision (which is `weatherTick` above).  The Home
Assistant fetches interleaved at lines 257-262 are the fetch step; their
extracted result is the `WeatherReading` input. -/

/-- Decimal value of a digit list. -/
def digitsVal (ds : List Char) : Nat :=
  ds.foldl (fun a c => a * 10 + (c.toNat - 48)) 0

/-- Modelled from Python `float(s)` for the plain decimal strings produced
by the sensors: optional sign, digits, optional fractional part; `none`
models the `ValueError` that `get_weather_icon` catches. -/
def parseDecimalQ (s : String) : Option ℚ :=
  let neg := s.startsWith "-"
  let body := if neg then s.drop 1 else s
  let sign : ℚ := if neg then -1 else 1
  match body.split (· = '.') with
  | [ip] =>
    if ip.length ≠ 0 ∧ ip.data.all Char.isDigit then
      some (sign * (digitsVal ip.data : ℚ))
    else none
  | [ip, fp] =>
    if ip.length ≠ 0 ∧ fp.length ≠ 0 ∧ ip.data.all Char.isDigit ∧
        fp.data.all Char.isDigit then
      some (sign *
        ((digitsVal ip.data : ℚ) + (digitsVal fp.data : ℚ) / (10 ^ fp.data.length : ℚ)))
    else none
  | _ => none

/-- Model of `get_weather_icon` (eink_display.py, lines 113-134): each
value parses as a float unless it is `'N/A'` (then 0); any parse failure
hits the bare `except` and yields the default icon. -/
def get_weather_icon (temp humidity windSpeed rain : String) : String :=
  let tv? := if temp = "N/A" then some (0 : ℚ) else parseDecimalQ temp
  let hv? := if humidity = "N/A" then some (0 : ℚ) else parseDecimalQ humidity
  let wv? := if windSpeed = "N/A" then some (0 : ℚ) else parseDecimalQ windSpeed
  let rv? := if rain = "N/A" then some (0 : ℚ) else parseDecimalQ rain
  match tv?, hv?, wv?, rv? with
  | some tv, some hv, some wv, some rv =>
    if rv > (1 / 10 : ℚ) then "🌧"
    else if wv > 15 then "💨"
    else if hv > 80 then "🌫"
    else if tv > 80 then "☀"
    else if tv < 40 then "❄"
    else "⛅"
  | _, _, _, _ => "⛅"

/-- Model of the composition in `EInkDisplay.update_display` for the
640×400 panel: the main border, header (time, date, `Updated:` line),
header rule, temperature section (box, icon, temperature/humidity/
feels-like row with its two layouts), and details section (box, wind/rain
line), in source drawing order.  The clock is read only through
`%I:%M %p` and `%A, %B %d` (minute granularity); the change-detector
bookkeeping that follows is `weatherTick`. -/
def eink_compose (w : WeatherReading) (t : ClockTime) : List DrawOp :=
  let width : Int := 640
  let height : Int := 400
  let margin : Int := 15
  let headerHeight : Int := 80
  let mainSectionY : Int := headerHeight + 20
  let time_str := fmtTimeIMp t
  let date_str := fmtDateABd t
  let update_time := fmtTimeIMp t
  -- draw_section_box(draw, 5, 5, width - 10, height - 10, 0, 3)
  let mainBorder : List DrawOp :=
    (List.range 3).map fun i =>
      .rectOutline (5 + i) (5 + i) (5 + (width - 10) - i) (5 + (height - 10) - i)
  -- draw_horizontal_line(draw, header_height + 10, 0, 2)
  let headerRule : List DrawOp :=
    (List.range 2).map fun i =>
      .lineSeg 10 (headerHeight + 10 + i) (width - 10) (headerHeight + 10 + i) 1
  let tempSectionY := mainSectionY
  let tempSectionHeight : Int := 100
  let tempBox : List DrawOp :=
    (List.range 2).map fun i =>
      .rectOutline (margin + i) (tempSectionY + i)
        (margin + (width - 2 * margin) - i) (tempSectionY + tempSectionHeight - i)
  let icon := get_weather_icon w.temp w.humidity w.windSpeed w.dailyRain
  let tl := temp_line w
  let feels_line :=
    if w.feelsLike ≠ "N/A" then w.feelsLike ++ w.tempUnit else w.temp ++ w.tempUnit
  -- section_width = (width - 2*margin - 40) // 5; the humidity anchor uses
  -- the exact float 2.5 * section_width
  let sectionWidth : Int := (width - 2 * margin - 40) / 5
  let temp_x : ℚ := ((margin + 20 + sectionWidth : Int) : ℚ)
  let humidity_x : ℚ := ((margin + 20 : Int) : ℚ) + (5 / 2 : ℚ) * (sectionWidth : ℚ)
  let feels_x : ℚ := ((margin + 20 + 4 * sectionWidth : Int) : ℚ)
  let tempRow : List DrawOp :=
    if w.feelsLike ≠ "N/A" ∧ w.feelsLike ≠ w.temp then
      [.textCenteredAt temp_x (tempSectionY + 55) tl .fontXLarge,
       .textCenteredAt humidity_x (tempSectionY + 55) (w.humidity ++ "%") .fontXLarge,
       .textCenteredAt feels_x (tempSectionY + 55) feels_line .fontXLarge,
       .textCenteredAt temp_x (tempSectionY + 35) "ACTUAL" .fontTiny,
       .textCenteredAt feels_x (tempSectionY + 35) "FEELS LIKE" .fontTiny]
    else
      [.textCenteredAt ((width / 2 - 50 : Int) : ℚ) (tempSectionY + 55) tl .fontXLarge,
       .textLeft (width / 2 + 50) (tempSectionY + 55) (w.humidity ++ "%") .fontXLarge]
  let detailsSectionY := tempSectionY + tempSectionHeight + 15
  let detailsSectionHeight : Int := 100
  let detailsBox : List DrawOp :=
    (List.range 2).map fun i =>
      .rectOutline (margin + i) (detailsSectionY + i)
        (margin + (width - 2 * margin) - i) (detailsSectionY + detailsSectionHeight - i)
  let detailY := detailsSectionY + 35
  mainBorder ++
    [.textLeft 20 15 time_str .fontLarge,
     .textLeft 20 50 date_str .fontTiny,
     .textRight (width - 20) 15 "Updated:" .fontTiny,
     .textRight (width - 20) 35 update_time .fontMedium] ++
    headerRule ++ tempBox ++
    [.textCentered (tempSectionY + 15) icon .fontLarge] ++
    tempRow ++ detailsBox ++
    [.textCentered detailY (details_line w) .fontLargeDetails]

/-! ## Sample inputs used by concrete witnesses and counterexamples -/

/-- A concrete photo record, as `get_album_photos` would build it. -/
def samplePhoto (i : Nat) : Photo :=
  { id := "id" ++ toString i
    filename := "photo" ++ toString i ++ ".jpg"
    baseUrl := "https://example/base" ++ toString i
    creationTime := some "2024-05-14T09:30:00Z"
    width := some "4000"
    height := some "3000" }

/-- A concrete weather reading. -/
def sampleReading : WeatherReading :=
  { temp := "72.5", tempUnit := "°F", humidity := "48", windSpeed := "3.1",
    windGust := "5.0", windUnit := "mph", dailyRain := "0.00", rainUnit := "in",
    feelsLike := "71.0" }

/-- A concrete clock reading. -/
def sampleClock : ClockTime :=
  { year := 2024, month := 5, day := 14, weekday := 1, hour24 := 9,
    minute := 30, second := 0 }

/-! ## Helper lemmas -/

lemma isEmpty_false_of_ne_nil {α : Type} {l : List α} (h : l ≠ []) :
    l.isEmpty = false := by
  cases l with
  | nil => exact absurd rfl h
  | cons a t => rfl

lemma refresh_no_fetch {s : PhotosState} {now : Nat} {fetched : List Photo}
    (h : needsRefresh s now = false) :
    refresh_photo_cache s now fetched = (s, false) := by
  simp [refresh_photo_cache, h]

lemma refresh_fetch {s : PhotosState} {now : Nat} {fetched : List Photo}
    (h : needsRefresh s now = true) :
    refresh_photo_cache s now fetched =
      ({ s with photoCache := fetched, lastFetchTime := some now }, true) := by
  simp [refresh_photo_cache, h]

/-- Whatever branch `get_next_photo` takes, the resulting cache, fetch
timestamp and fetch flag are those produced by `refresh_photo_cache`. -/
lemma get_next_photo_components (s : PhotosState) (now : Nat)
    (fetched : List Photo) :
    (get_next_photo s now fetched).state.photoCache =
        (refresh_photo_cache s now fetched).1.photoCache ∧
      (get_next_photo s now fetched).state.lastFetchTime =
        (refresh_photo_cache s now fetched).1.lastFetchTime ∧
      (get_next_photo s now fetched).didFetch =
        (refresh_photo_cache s now fetched).2 := by
  simp only [get_next_photo]
  split
  · exact ⟨rfl, rfl, rfl⟩
  · split
    · exact ⟨rfl, rfl, rfl⟩
    · exact ⟨rfl, rfl, rfl⟩

/-! ## C1: fallback on failed fetch -/

/-- C1 (counterexample).  Start from a state holding one previously fetched
photo (`last_fetch_time = 0`).  At minute 61 the TTL has expired, so
`refresh_photo_cache` performs a fetch; the fetch fails (`[]`).  Contrary
to the claim, the previously cached photo is not retained: the cache is
overwritten with the empty list and `get_next_photo` returns `None`. -/
theorem c1_failed_fetch_blanks_cache :
    (get_next_photo initPhotosState 0 [samplePhoto 0]).state.photoCache =
        [samplePhoto 0] ∧
      (get_next_photo
        (get_next_photo initPhotosState 0 [samplePhoto 0]).state 61 []).didFetch =
        true ∧
      (get_next_photo
        (get_next_photo initPhotosState 0 [samplePhoto 0]).state 61 []).result =
        NextResult.noPhotos ∧
      (get_next_photo
        (get_next_photo initPhotosState 0 [samplePhoto 0]).state 61 []).state.photoCache =
        [] := by
  decide

/-- C1 (amended).  The previous snapshot survives a failure only when no
fetch step occurs at all: (a) if a prior fetch timestamp exists, the cache
is non-empty and the TTL has not expired, `get_next_photo` performs no
fetch and keeps the cached photos; (b) whenever the refresh guard fires and
the underlying `get_album_photos` fails (returns `[]`), the cache is
overwritten with the empty list and `get_next_photo` returns `None`. -/
theorem c1_fallback_amended :
    (∀ (s : PhotosState) (t0 now : Nat) (fetched : List Photo),
      s.lastFetchTime = some t0 → s.photoCache ≠ [] →
      now - t0 ≤ cacheDurationMinutes →
      (get_next_photo s now fetched).didFetch = false ∧
        (get_next_photo s now fetched).state.photoCache = s.photoCache) ∧
    (∀ (s : PhotosState) (now : Nat),
      needsRefresh s now = true →
      (get_next_photo s now []).result = NextResult.noPhotos ∧
        (get_next_photo s now []).state.photoCache = []) := by
  constructor
  · intro s t0 now fetched hlf hne hle
    have hdec : decide (now - t0 > cacheDurationMinutes) = false := by
      simp only [decide_eq_false_iff_not]
      omega
    have hnr : needsRefresh s now = false := by
      simp [needsRefresh, hlf, hdec, isEmpty_false_of_ne_nil hne]
    obtain ⟨hc, _, hd⟩ := get_next_photo_components s now fetched
    rw [refresh_no_fetch hnr] at hc hd
    exact ⟨hd, hc⟩
  · intro s now hnr
    simp only [get_next_photo, refresh_fetch hnr]
    exact ⟨rfl, rfl⟩

theorem c1_fallback_amended_witness :
    ((get_next_photo ⟨[samplePhoto 0], 0, some 0⟩ 30 []).didFetch = false ∧
      (get_next_photo ⟨[samplePhoto 0], 0, some 0⟩ 30 []).state.photoCache =
        [samplePhoto 0]) ∧
    ((get_next_photo ⟨[samplePhoto 0], 0, some 0⟩ 61 []).result =
        NextResult.noPhotos ∧
      (get_next_photo ⟨[samplePhoto 0], 0, some 0⟩ 61 []).state.photoCache = []) :=
  ⟨c1_fallback_amended.1 ⟨[samplePhoto 0], 0, some 0⟩ 0 30 [] rfl
      (by decide) (by decide),
    c1_fallback_amended.2 ⟨[samplePhoto 0], 0, some 0⟩ 61 (by decide)⟩

/-! ## C3: cache TTL bounds fetches -/

/-- C3 (counterexample).  Two `get` calls one minute apart (61 and 62),
starting from a state with a prior successful fetch at minute 0.  The first
call's TTL has expired and its fetch fails, blanking the cache; the second
call therefore fetches again: two Content Source invocations within the
TTL window, contradicting "at most once". -/
theorem c3_double_fetch_within_ttl :
    62 - 61 ≤ cacheDurationMinutes ∧
      (get_next_photo ⟨[samplePhoto 0], 0, some 0⟩ 61 []).didFetch = true ∧
      (get_next_photo
        (get_next_photo ⟨[samplePhoto 0], 0, some 0⟩ 61 []).state 62
        [samplePhoto 1]).didFetch = true := by
  decide

/-- C3 (amended).  (a) Two successive non-forced `get` calls within the TTL
of each other, starting from a state with a prior successful fetch, invoke
the Content Source at most once, provided that the fetch performed by the
first call (if any) returns a non-empty list; a failed first fetch empties
the cache and forces the second call to fetch again.  (b)
`should_update_photo` returns `False` when less than `rotation_interval`
minutes have elapsed since `last_photo_update`. -/
theorem c3_ttl_amended :
    (∀ (s : PhotosState) (t0 t1 t2 : Nat) (f1 f2 : List Photo),
      s.lastFetchTime = some t0 → s.photoCache ≠ [] → t1 ≤ t2 →
      t2 - t1 ≤ cacheDurationMinutes →
      (needsRefresh s t1 = true → f1 ≠ []) →
      (get_next_photo s t1 f1).didFetch.toNat +
        (get_next_photo (get_next_photo s t1 f1).state t2 f2).didFetch.toNat
          ≤ 1) ∧
    (∀ (t now r : Nat), now - t < r →
      should_update_photo (some t) now r = false) := by
  constructor
  · intro s t0 t1 t2 f1 f2 hlf hne _hle hgap hsucc
    obtain ⟨hc1, hl1, hd1⟩ := get_next_photo_components s t1 f1
    obtain ⟨_, _, hd2⟩ :=
      get_next_photo_components (get_next_photo s t1 f1).state t2 f2
    by_cases hnr : needsRefresh s t1 = true
    · have hf1 : f1 ≠ [] := hsucc hnr
      rw [refresh_fetch hnr] at hc1 hl1 hd1
      have hdec : decide (t2 - t1 > cacheDurationMinutes) = false := by
        simp only [decide_eq_false_iff_not]
        omega
      have hnr2 : needsRefresh (get_next_photo s t1 f1).state t2 = false := by
        simp [needsRefresh, hl1, hdec, hc1, isEmpty_false_of_ne_nil hf1]
      rw [refresh_no_fetch hnr2] at hd2
      rw [hd1, hd2]
      simp
    · have hnr' : needsRefresh s t1 = false := by
        simpa using hnr
      rw [refresh_no_fetch hnr'] at hd1
      rw [hd1]
      cases hb : (get_next_photo (get_next_photo s t1 f1).state t2 f2).didFetch
      · simp
      · simp
  · intro t now r h
    simp only [should_update_photo, decide_eq_false_iff_not]
    omega

theorem c3_ttl_amended_witness :
    ((get_next_photo ⟨[samplePhoto 0], 0, some 0⟩ 61 [samplePhoto 1]).didFetch.toNat +
        (get_next_photo
          (get_next_photo ⟨[samplePhoto 0], 0, some 0⟩ 61 [samplePhoto 1]).state
          90 [samplePhoto 2]).didFetch.toNat ≤ 1) ∧
    should_update_photo (some 10) 20 30 = false :=
  ⟨c3_ttl_amended.1 ⟨[samplePhoto 0], 0, some 0⟩ 0 61 90 [samplePhoto 1]
      [samplePhoto 2] rfl (by decide) (by decide) (by decide)
      (fun _ => by decide),
    c3_ttl_amended.2 10 20 30 (by decide)⟩

/-! ## C9: index safety of `get_next_photo` -/

/-- C9 (code bug, failing input).  Fetch three photos at minute 0 and
rotate twice, leaving `current_photo_index = 2`.  At minute 61 the cache
TTL has expired and the refresh returns a single-photo list; the index is
not reset, so `photo_cache[2]` is evaluated on a list of length 1 —
an uncaught `IndexError` in the Python source. -/
theorem c9_index_out_of_bounds :
    (get_next_photo
      (get_next_photo
        (get_next_photo initPhotosState 0
          [samplePhoto 0, samplePhoto 1, samplePhoto 2]).state 1 []).state
      61 [samplePhoto 3]).state.photoCache.length = 1 ∧
    (get_next_photo
      (get_next_photo
        (get_next_photo initPhotosState 0
          [samplePhoto 0, samplePhoto 1, samplePhoto 2]).state 1 []).state
      61 [samplePhoto 3]).state.currentPhotoIndex = 2 ∧
    (get_next_photo
      (get_next_photo
        (get_next_photo initPhotosState 0
          [samplePhoto 0, samplePhoto 1, samplePhoto 2]).state 1 []).state
      61 [samplePhoto 3]).result = NextResult.indexError := by
  decide

/-! ## C2: forced repaint cadence -/

lemma weatherTick_skip {s : EInkState} {w : WeatherReading} {t : ClockTime}
    (h1 : s.lastWeatherHash = some (weather_fingerprint w))
    (h2 : s.updateCount % 20 ≠ 0) :
    weatherTick s w t =
      ({ s with lastContentHash := some (content_string w t) }, Decision.skip) := by
  simp [weatherTick, h1, h2]

lemma weatherTick_forced {s : EInkState} {w : WeatherReading} {t : ClockTime}
    (h1 : s.lastWeatherHash = some (weather_fingerprint w))
    (h2 : s.updateCount % 20 = 0) :
    weatherTick s w t =
      ({ s with
          lastWeatherHash := some (weather_fingerprint w)
          lastMinute := some (fmtTimeIMp t)
          updateCount := s.updateCount + 1
          lastContentHash := some (content_string w t) }, Decision.repaint) := by
  simp [weatherTick, h1, h2]

/-- With unchanged content and a repaint count that is not a multiple of
20, every subsequent tick skips and the count never moves. -/
lemma weatherTicks_all_skip (w : WeatherReading) (t : ClockTime) (n : Nat) :
    ∀ (s : EInkState), s.lastWeatherHash = some (weather_fingerprint w) →
      s.updateCount % 20 ≠ 0 →
      (weatherTicks s w t n).2 = List.replicate n Decision.skip ∧
        (weatherTicks s w t n).1.updateCount = s.updateCount := by
  induction n with
  | zero => intro s _ _; exact ⟨rfl, rfl⟩
  | succ n ih =>
    intro s h1 h2
    have hstep := weatherTick_skip (t := t) h1 h2
    have ih' := ih { s with lastContentHash := some (content_string w t) } h1 h2
    simp only [weatherTicks, hstep, List.replicate_succ]
    exact ⟨by rw [ih'.1], ih'.2⟩

/-- C2 (counterexample).  Start the change detector from scratch: the very
first tick repaints (first run) and leaves `update_count = 1`.  Then 20
consecutive ticks with unchanged content all yield SKIP — in particular the
20th tick yields SKIP, not the REPAINT the claim requires, and the tick
counter is not the claimed skip counter. -/
theorem c2_twentieth_tick_skips :
    (weatherTick initEInkState sampleReading sampleClock).2 = Decision.repaint ∧
      (weatherTicks (weatherTick initEInkState sampleReading sampleClock).1
          sampleReading sampleClock 20).2 =
        List.replicate 20 Decision.skip := by
  decide

/-- C2 (amended).  In `update_display` the forced-repaint test is
`update_count % 20 == 0`, and `update_count` counts repaints, not ticks:
with unchanged content a tick repaints exactly when `update_count` is a
multiple of 20, the counter is incremented on REPAINT (never reset to 0)
and left unchanged on SKIP — so from any state whose repaint count is not
a multiple of 20, unchanged content produces SKIP on every subsequent tick,
with no forced repaint on the Nth tick. -/
theorem c2_forced_repaint_amended :
    ∀ (s : EInkState) (w : WeatherReading) (t : ClockTime),
      s.lastWeatherHash = some (weather_fingerprint w) →
      ((s.updateCount % 20 = 0 →
          (weatherTick s w t).2 = Decision.repaint ∧
            (weatherTick s w t).1.updateCount = s.updateCount + 1) ∧
        (s.updateCount % 20 ≠ 0 →
          ∀ n, (weatherTicks s w t n).2 = List.replicate n Decision.skip ∧
            (weatherTicks s w t n).1.updateCount = s.updateCount)) := by
  intro s w t h1
  constructor
  · intro h2
    rw [weatherTick_forced h1 h2]
    exact ⟨rfl, rfl⟩
  · intro h2 n
    exact weatherTicks_all_skip w t n s h1 h2

theorem c2_forced_repaint_amended_witness :
    ((weatherTick
        { lastContentHash := none, updateCount := 20, lastMinute := none,
          lastWeatherHash := some (weather_fingerprint sampleReading),
          pUpdateCount := 0 } sampleReading sampleClock).2 = Decision.repaint ∧
      (weatherTick
        { lastContentHash := none, updateCount := 20, lastMinute := none,
          lastWeatherHash := some (weather_fingerprint sampleReading),
          pUpdateCount := 0 } sampleReading sampleClock).1.updateCount = 21) ∧
    ((weatherTicks
        { lastContentHash := none, updateCount := 1, lastMinute := none,
          lastWeatherHash := some (weather_fingerprint sampleReading),
          pUpdateCount := 0 } sampleReading sampleClock 3).2 =
      List.replicate 3 Decision.skip ∧
      (weatherTicks
        { lastContentHash := none, updateCount := 1, lastMinute := none,
          lastWeatherHash := some (weather_fingerprint sampleReading),
          pUpdateCount := 0 } sampleReading sampleClock 3).1.updateCount = 1) :=
  ⟨(c2_forced_repaint_amended
      { lastContentHash := none, updateCount := 20, lastMinute := none,
        lastWeatherHash := some (weather_fingerprint sampleReading),
        pUpdateCount := 0 } sampleReading sampleClock rfl).1 (by decide),
    (c2_forced_repaint_amended
      { lastContentHash := none, updateCount := 1, lastMinute := none,
        lastWeatherHash := some (weather_fingerprint sampleReading),
        pUpdateCount := 0 } sampleReading sampleClock rfl).2 (by decide) 3⟩

/-! ## C10: the time-only update is idempotent within a minute -/

/-- C10 (confirmed).  `update_time_only` returns immediately when the
formatted current minute equals `last_minute` (eink_display.py, line 143):
no panel driver operation is issued and the state — `last_minute`,
`partial_update_count`, `update_count` and both hashes — is unchanged,
whatever the driver capabilities or failure behaviour. -/
theorem c10_time_only_idempotent_within_minute :
    ∀ (s : EInkState) (t : ClockTime) (hasPartialMethods : Bool)
      (failAfter : Option Nat) (w : WeatherReading),
      s.lastMinute = some (fmtTimeIMp t) →
      update_time_only s t hasPartialMethods failAfter w = (s, []) := by
  intro s t hp fa w h
  simp [update_time_only, h]

theorem c10_time_only_idempotent_witness :
    update_time_only
      { lastContentHash := none, updateCount := 3,
        lastMinute := some (fmtTimeIMp sampleClock),
        lastWeatherHash := some (weather_fingerprint sampleReading),
        pUpdateCount := 7 } sampleClock true none sampleReading =
    ({ lastContentHash := none, updateCount := 3,
        lastMinute := some (fmtTimeIMp sampleClock),
        lastWeatherHash := some (weather_fingerprint sampleReading),
        pUpdateCount := 7 }, []) :=
  c10_time_only_idempotent_within_minute
    { lastContentHash := none, updateCount := 3,
      lastMinute := some (fmtTimeIMp sampleClock),
      lastWeatherHash := some (weather_fingerprint sampleReading),
      pUpdateCount := 7 } sampleClock true none sampleReading rfl

/-! ## C4: fingerprint stability -/

/-- A reading whose serialized components contain no `'|'` separator, so
that the pipe-joined `weather_string` determines the components.  (Real
sensor states are numeric strings and never contain a pipe.) -/
def pipeFreeW (w : WeatherReading) : Prop :=
  '|' ∉ (temp_line w).data ∧ '|' ∉ w.humidity.data ∧
    '|' ∉ w.windSpeed.data ∧ '|' ∉ w.dailyRain.data

lemma pipe_split (a : List Char) : ∀ (c b d : List Char), '|' ∉ a → '|' ∉ c →
    a ++ '|' :: b = c ++ '|' :: d → a = c ∧ b = d := by
  induction a with
  | nil =>
    intro c b d _ hc h
    cases c with
    | nil =>
      simp only [List.nil_append, List.cons.injEq] at h
      exact ⟨rfl, h.2⟩
    | cons y c' =>
      simp only [List.nil_append, List.cons_append, List.cons.injEq] at h
      exact absurd (by rw [← h.1]; exact List.mem_cons_self '|' c') hc
  | cons x a' ih =>
    intro c b d ha hc h
    cases c with
    | nil =>
      simp only [List.cons_append, List.nil_append, List.cons.injEq] at h
      exact absurd (by rw [h.1]; exact List.mem_cons_self '|' a') ha
    | cons y c' =>
      simp only [List.cons_append, List.cons.injEq] at h
      obtain ⟨hxy, hrest⟩ := h
      have ha' : '|' ∉ a' := fun hm => ha (List.mem_cons_of_mem x hm)
      have hc' : '|' ∉ c' := fun hm => hc (List.mem_cons_of_mem y hm)
      obtain ⟨he, hr⟩ := ih c' b d ha' hc' hrest
      exact ⟨by rw [hxy, he], hr⟩

lemma weather_string_data (w : WeatherReading) :
    (weather_string w).data =
      (temp_line w).data ++ '|' :: (w.humidity.data ++ '|' ::
        (w.windSpeed.data ++ '|' :: (w.dailyRain.data ++ '|' ::
          w.feelsLike.data))) := by
  have hp : ("|" : String).data = ['|'] := rfl
  simp [weather_string, String.data_append, hp, List.append_assoc]

lemma weather_string_inj {w1 w2 : WeatherReading}
    (h1 : pipeFreeW w1) (h2 : pipeFreeW w2)
    (h : weather_string w1 = weather_string w2) :
    temp_line w1 = temp_line w2 ∧ w1.humidity = w2.humidity ∧
      w1.windSpeed = w2.windSpeed ∧ w1.dailyRain = w2.dailyRain ∧
      w1.feelsLike = w2.feelsLike := by
  have hd := congrArg String.data h
  rw [weather_string_data, weather_string_data] at hd
  obtain ⟨e1, hd⟩ := pipe_split _ _ _ _ h1.1 h2.1 hd
  obtain ⟨e2, hd⟩ := pipe_split _ _ _ _ h1.2.1 h2.2.1 hd
  obtain ⟨e3, hd⟩ := pipe_split _ _ _ _ h1.2.2.1 h2.2.2.1 hd
  obtain ⟨e4, e5⟩ := pipe_split _ _ _ _ h1.2.2.2 h2.2.2.2 hd
  exact ⟨String.ext e1, String.ext e2, String.ext e3, String.ext e4,
    String.ext e5⟩

/-- C4 (counterexample).  Two readings that differ only in the wind gust —
a displayed field, since it appears in the rendered details line — have
equal fingerprints: the serialization hashed at line 363 omits
`wind_gust` (and the wind/rain units). -/
theorem c4_gust_not_fingerprinted :
    weather_fingerprint sampleReading =
        weather_fingerprint { sampleReading with windGust := "9.9" } ∧
      sampleReading.windGust ≠
        ({ sampleReading with windGust := "9.9" } : WeatherReading).windGust ∧
      details_line sampleReading ≠
        details_line { sampleReading with windGust := "9.9" } := by
  decide

/-- C4 (amended).  For snapshots whose serialized components contain no
`'|'`, the fingerprints are equal exactly when the hashed components —
the temperature line (value and unit concatenated), humidity, wind speed,
daily rain and feels-like — are equal.  Sub-minute timestamps never enter
the fingerprint, but the displayed wind gust and the wind/rain units are
also excluded, so differing in those does not change the fingerprint. -/
theorem c4_fingerprint_amended :
    ∀ (w1 w2 : WeatherReading), pipeFreeW w1 → pipeFreeW w2 →
      (weather_fingerprint w1 = weather_fingerprint w2 ↔
        (temp_line w1 = temp_line w2 ∧ w1.humidity = w2.humidity ∧
          w1.windSpeed = w2.windSpeed ∧ w1.dailyRain = w2.dailyRain ∧
          w1.feelsLike = w2.feelsLike)) := by
  intro w1 w2 h1 h2
  constructor
  · exact weather_string_inj h1 h2
  · rintro ⟨e1, e2, e3, e4, e5⟩
    simp only [weather_fingerprint, weather_string, e1, e2, e3, e4, e5]

theorem c4_fingerprint_amended_witness :
    weather_fingerprint sampleReading =
        weather_fingerprint { sampleReading with humidity := "52" } ↔
      (temp_line sampleReading =
          temp_line { sampleReading with humidity := "52" } ∧
        sampleReading.humidity =
          ({ sampleReading with humidity := "52" } : WeatherReading).humidity ∧
        sampleReading.windSpeed =
          ({ sampleReading with humidity := "52" } : WeatherReading).windSpeed ∧
        sampleReading.dailyRain =
          ({ sampleReading with humidity := "52" } : WeatherReading).dailyRain ∧
        sampleReading.feelsLike =
          ({ sampleReading with humidity := "52" } : WeatherReading).feelsLike) :=
  c4_fingerprint_amended sampleReading { sampleReading with humidity := "52" }
    ⟨by decide, by decide, by decide, by decide⟩
    ⟨by decide, by decide, by decide, by decide⟩

/-! ## C5: behaviour of a tick whose fetch fails -/

/-- C5 (counterexample).  On the very first tick the photo fetch fails
(`get_next_photo` returns `None`); contrary to the claim that the panel is
not touched, the tick issues two Panel Driver display calls: the loading
screen (shown before the fetch) and the error image. -/
theorem c5_failed_fetch_touches_panel :
    (service_update_display initServiceState 0 30 none none none).panelOps =
        [PanelOp.displayLoading, PanelOp.displayError "No photos available"] ∧
      (service_update_display initServiceState 0 30 none none none).panelOps
        ≠ [] := by
  decide

/-- C5 (amended).  On a tick whose fetch fails, `update_display` returns
normally (every exception is caught inside it, so the loop keeps running),
performs exactly one fetch attempt (no retry before the next natural tick)
and leaves the rotation bookkeeping untouched — but the panel is touched:
the tick displays a loading screen before the fetch and an error image
after the failure. -/
theorem c5_failed_fetch_amended :
    ∀ (s : ServiceState) (now ri : Nat) (dl pr : Option PImage),
      (should_update_photo s.lastPhotoUpdate now ri
          || s.currentPhotoInfo.isNone) = true →
      (service_update_display s now ri none dl pr).panelOps =
          [PanelOp.displayLoading, PanelOp.displayError "No photos available"] ∧
        (service_update_display s now ri none dl pr).state = s ∧
        (service_update_display s now ri none dl pr).fetchCalls = 1 := by
  intro s now ri dl pr h
  simp [service_update_display, h]

theorem c5_failed_fetch_amended_witness :
    (service_update_display initServiceState 5 30 none none none).panelOps =
        [PanelOp.displayLoading, PanelOp.displayError "No photos available"] ∧
      (service_update_display initServiceState 5 30 none none none).state =
        initServiceState ∧
      (service_update_display initServiceState 5 30 none none none).fetchCalls
        = 1 :=
  c5_failed_fetch_amended initServiceState 5 30 none none (by decide)

/-! ## C6: authentication failure at startup -/

lemma idleExit_none :
    ∀ (n : Nat) (reload : Nat → Bool), (∀ k, reload k = false) →
      idleExit reload n = none := by
  intro n
  induction n with
  | zero => intro reload _; rfl
  | succ n ih =>
    intro reload h
    simp [idleExit, h 0, ih (fun k => reload (k + 1)) (fun k => h (k + 1))]

/-- C6 (counterexample).  The run-loop entry point
`PhotoDisplayService.run` does not idle after an authentication failure:
it displays the error image and returns immediately (line 297), ending the
run — so the claimed behaviour does not hold for every entry point. -/
theorem c6_service_run_exits_on_auth_failure :
    photoServiceRunStart false =
        ServiceRunStart.exitAfterAuthFailure
          [PanelOp.initPanel, PanelOp.clearPanel,
            PanelOp.displayError "Authentication failed"] ∧
      ∀ ops, photoServiceRunStart false ≠ ServiceRunStart.mainLoopEntered ops := by
  constructor
  · rfl
  · intro ops h
    exact ServiceRunStart.noConfusion h

/-- C6 (amended).  On authentication failure, `photo_display.main`
displays the static failure message and then idles, polling the reload
flag indefinitely: while the flag stays false it never exits, however many
polls elapse, so recovery without a process restart is possible.
`PhotoDisplayService.run`, by contrast, displays an error image and
returns at once instead of idling. -/
theorem c6_auth_failure_amended :
    (∀ (reload : Nat → Bool) (polls : Nat), (∀ k, reload k = false) →
      (photoDisplayMainAuthFail reload polls).exitedAtPoll = none ∧
        (photoDisplayMainAuthFail reload polls).panelOps =
          [PanelOp.displayMessage "Starting up Photo Frame...",
            PanelOp.displayMessage
              "Authentication Failed.\nCheck .env and token files."]) ∧
    (∃ ops, photoServiceRunStart false =
      ServiceRunStart.exitAfterAuthFailure ops) := by
  constructor
  · intro reload polls h
    exact ⟨by simp [photoDisplayMainAuthFail, idleExit_none polls reload h], rfl⟩
  · exact ⟨_, rfl⟩

theorem c6_auth_failure_amended_witness :
    (photoDisplayMainAuthFail (fun _ => false) 7).exitedAtPoll = none ∧
      (photoDisplayMainAuthFail (fun _ => false) 7).panelOps =
        [PanelOp.displayMessage "Starting up Photo Frame...",
          PanelOp.displayMessage
            "Authentication Failed.\nCheck .env and token files."] :=
  c6_auth_failure_amended.1 (fun _ => false) 7 (fun _ => rfl)

/-! ## C7: the panel is released on every loop exit -/

lemma getLast_append_single {α : Type} (l : List α) (a : α) :
    (l ++ [a]).getLast? = some a :=
  List.getLast?_concat l

/-- C7 (confirmed).  Both run loops terminate only through the interrupt
or exception handlers, and in every such execution — for any number of
completed loop iterations and either exit cause — the final event of the
trace is the panel release `epdconfig.module_exit()`, performed by the
`finally` block as its last statement. -/
theorem c7_panel_released_last :
    ∀ (n : Nat) (cause : ExitCause),
      (einkRunTrace n cause).getLast? = some RunEvent.moduleExit ∧
        (serviceRunTrace n cause).getLast? = some RunEvent.moduleExit := by
  intro n cause
  exact ⟨getLast_append_single _ _, getLast_append_single _ _⟩

/-! ## C8: the compose step is deterministic at minute granularity -/

/-- C8 (confirmed).  Both compose steps — `draw_photo_with_info` for the
photo service and the drawing part of `EInkDisplay.update_display` for the
weather display — are modelled as pure functions of the snapshot and the
sampled clock, faithful because neither performs network or disk I/O nor
assigns attributes while composing (the HA fetches inside `update_display`
are the fetch step, whose extracted reading is the snapshot input); and
for every snapshot the composed primitive list (hence the rasterized
bitmap) depends on the clock only through the minute-granular
`%I:%M %p` / `%A, %B %d` renderings: two clock readings equal on every
calendar field except seconds compose to identical output on both paths. -/
theorem c8_compose_minute_deterministic :
    ∀ (photo : PImage) (info : Photo) (w : WeatherReading) (t1 t2 : ClockTime),
      t1.year = t2.year → t1.month = t2.month → t1.day = t2.day →
      t1.weekday = t2.weekday → t1.hour24 = t2.hour24 →
      t1.minute = t2.minute →
      draw_photo_with_info photo info t1 = draw_photo_with_info photo info t2 ∧
        eink_compose w t1 = eink_compose w t2 := by
  intro photo info w t1 t2 h1 h2 h3 h4 h5 h6
  cases t1
  cases t2
  simp only at h1 h2 h3 h4 h5 h6
  subst h1 h2 h3 h4 h5 h6
  exact ⟨rfl, rfl⟩

theorem c8_compose_minute_deterministic_witness :
    draw_photo_with_info ⟨800, 600⟩ (samplePhoto 0) sampleClock =
        draw_photo_with_info ⟨800, 600⟩ (samplePhoto 0)
          { sampleClock with second := 42 } ∧
      eink_compose sampleReading sampleClock =
        eink_compose sampleReading { sampleClock with second := 42 } :=
  c8_compose_minute_deterministic ⟨800, 600⟩ (samplePhoto 0) sampleReading
    sampleClock { sampleClock with second := 42 } rfl rfl rfl rfl rfl rfl

end PInfo
